import Mathlib

/-!
Verification of the retrieval-augmented PDF question-answering pipeline of the
`ai-chat` repository.

The JavaScript source is shallowly embedded: pure logic becomes Lean functions,
and every external effect (LLM chat-completion calls, the embedding provider,
the Postgres vector store) becomes an explicit oracle parameter describing the
outcome that the surrounding code observes (success payload, non-OK HTTP
response, or a thrown exception).  JavaScript numbers used as counters and
indices are modelled as `Nat`; embedding vectors as `List ℚ`; strings as Lean
`String`.  Whitespace classes of JavaScript regexes are modelled over the ASCII
whitespace characters.
-/

/-! ## Query rewriter (`rewriteQuery` in `app/api/chat-pdf/route.js`)

The two LLM calls (normalization, then decomposition-or-expansion) are
modelled by `LLMOutcome` oracles: `throws` is an exception escaping the
`fetch`/`json()` call (caught by the function's single `catch` block),
`notOk` is a non-2xx HTTP response, and `ok content` is a parsed response
whose trimmed message content is `content` (`none` when missing or empty,
mirroring the falsiness test in the source). -/

inductive LLMOutcome where
  | throws (msg : String)
  | notOk
  | ok (content : Option String)
deriving DecidableEq

/-- Result object built by `rewriteQuery`; mirrors the mutable `rewriteResult`
object of the source (`originalQuery`, `finalQuery`, `queryType`, `steps`,
plus the optional fields assigned along some paths). -/
structure RewriteResult where
  originalQuery : String
  finalQuery : String
  queryType : String
  steps : List String
  normalizedQuery : Option String
  subQueries : Option String
  error : Option String
deriving DecidableEq

/-- Digit class of the JavaScript regex `\d`. -/
def isDigitChar (c : Char) : Bool :=
  decide ('0' ≤ c) && decide (c ≤ '9')

/-- Whitespace class of the JavaScript regex `\s`, restricted to ASCII. -/
def isSpaceChar (c : Char) : Bool :=
  c == ' ' || c == '\t' || c == '\n' || c == '\r'

/-- Does `l` start with the pattern `pat`? -/
def beginsWith : List Char → List Char → Bool
  | [], _ => true
  | _ :: _, [] => false
  | p :: ps, c :: cs => p == c && beginsWith ps cs

/-- Does `l` contain `pat` as a contiguous substring? -/
def containsSub (pat : List Char) : List Char → Bool
  | [] => beginsWith pat []
  | c :: cs => beginsWith pat (c :: cs) || containsSub pat cs

/-- The compound-question markers of the detector regex
`/和|与|或者|以及|区别|对比|比较/` in `rewriteQuery`. -/
def compoundMarkers : List String :=
  ["和", "与", "或者", "以及", "区别", "对比", "比较"]

/-- The compound-question detector: `isCompoundQuery` in the source, a regex
test of the seven Chinese markers against the post-normalization query. -/
def isCompoundQuery (s : String) : Bool :=
  compoundMarkers.any (fun m => containsSub m.data s.data)

/-- One pass of the global replacement `.replace(/\d+\.\s*/g, '')`: a match
starts at a maximal digit run immediately followed by `.` (shorter digit runs
are followed by a digit, so regex backtracking never produces a different
match), and greedily consumes trailing whitespace. -/
def stripNumbering (l : List Char) : List Char :=
  match l with
  | [] => []
  | c :: cs =>
    if isDigitChar c then
      match hdw : List.dropWhile isDigitChar cs with
      | '.' :: rest2 =>
          stripNumbering (List.dropWhile isSpaceChar rest2)
      | rest =>
          List.takeWhile isDigitChar (c :: cs) ++ stripNumbering rest
    else
      c :: stripNumbering cs
termination_by l.length
decreasing_by
  · have h1 : (List.dropWhile isSpaceChar rest2).length ≤ rest2.length :=
      (List.dropWhile_sublist _).length_le
    have h2 : ('.' :: rest2).length ≤ cs.length := by
      rw [← hdw]
      exact (List.dropWhile_sublist _).length_le
    simp only [List.length_cons] at h2 ⊢
    omega
  · have h2 : rest.length ≤ cs.length := by
      rw [← hdw]
      exact (List.dropWhile_sublist _).length_le
    simp only [List.length_cons]
    omega
  · simp only [List.length_cons]
    omega

/-- The global replacement `.replace(/\n+/g, ' ')`: each maximal run of
newlines becomes a single space. -/
def collapseNewlines (l : List Char) : List Char :=
  match l with
  | [] => []
  | c :: cs =>
    if c == '\n' then
      ' ' :: collapseNewlines (List.dropWhile (fun d => d == '\n') cs)
    else
      c :: collapseNewlines cs
termination_by l.length
decreasing_by
  · have h1 : (List.dropWhile (fun d => d == '\n') cs).length ≤ cs.length :=
      (List.dropWhile_sublist _).length_le
    simp only [List.length_cons]
    omega
  · simp only [List.length_cons]
    omega

/-- Merging the decomposition sub-questions into one retrieval string:
`subQueries.replace(/\d+\.\s*/g, '').replace(/\n+/g, ' ')`. -/
def mergeSubQueries (s : String) : String :=
  String.mk (collapseNewlines (stripNumbering s.data))

/-- The branch step of `rewriteQuery` (decomposition for compound queries,
expansion otherwise), applied to the result `r1` of the normalization step.
`o2` is the outcome of the branch's LLM call. -/
def rewriteStage2 (r1 : RewriteResult) (o2 : LLMOutcome) : RewriteResult :=
  if isCompoundQuery r1.finalQuery then
    let r2 := { r1 with queryType := "decomposition",
                        steps := r1.steps ++ ["使用查询分解"] }
    match o2 with
    | .throws msg =>
        { r2 with queryType := "fallback", error := some msg,
                  steps := r2.steps ++ ["查询重写失败"] }
    | .ok (some sub) =>
        { r2 with subQueries := some sub, finalQuery := mergeSubQueries sub }
    | .ok none => { r2 with steps := r2.steps ++ ["查询分解失败"] }
    | .notOk => { r2 with steps := r2.steps ++ ["查询分解 API 失败"] }
  else
    let r2 := { r1 with queryType := "expansion",
                        steps := r1.steps ++ ["使用查询扩展"] }
    match o2 with
    | .throws msg =>
        { r2 with queryType := "fallback", error := some msg,
                  steps := r2.steps ++ ["查询重写失败"] }
    | .ok (some ex) => { r2 with finalQuery := ex }
    | .ok none => { r2 with steps := r2.steps ++ ["查询扩展失败"] }
    | .notOk => { r2 with steps := r2.steps ++ ["查询扩展 API 失败"] }

/-- `rewriteQuery(originalQuery)` of `app/api/chat-pdf/route.js`.  `o1` is the
outcome of the normalization call, `o2` of the branch call.  A thrown
exception at either call lands in the `catch` block, which overwrites
`queryType` with `"fallback"`, records the error and appends the failure step,
keeping every field already assigned. -/
def rewriteQuery (originalQuery : String) (o1 o2 : LLMOutcome) : RewriteResult :=
  let r0 : RewriteResult :=
    { originalQuery := originalQuery, finalQuery := originalQuery,
      queryType := "original", steps := [], normalizedQuery := none,
      subQueries := none, error := none }
  match o1 with
  | .throws msg =>
      { r0 with queryType := "fallback", error := some msg,
                steps := r0.steps ++ ["查询重写失败"] }
  | .notOk =>
      rewriteStage2 { r0 with steps := r0.steps ++ ["标准化失败"] } o2
  | .ok none =>
      rewriteStage2 { r0 with steps := r0.steps ++ ["标准化结果为空"] } o2
  | .ok (some nq) =>
      rewriteStage2
        { r0 with normalizedQuery := some nq, finalQuery := nq,
                  steps := r0.steps ++ ["标准化完成"] } o2

/-- Did this LLM call throw (land in the `catch` block)? -/
def isThrow : LLMOutcome → Bool
  | .throws _ => true
  | _ => false

/-- Did this stage fail to yield usable content (thrown exception, non-OK
response, or missing/empty message content)? -/
def isStageFailure : LLMOutcome → Bool
  | .ok (some _) => false
  | _ => true

/-- The value of `rewriteResult.finalQuery` right after the normalization
step (the `queryForAnalysis` of the source). -/
def stage1Final (originalQuery : String) : LLMOutcome → String
  | .ok (some nq) => nq
  | _ => originalQuery

/-! ## Smart retrieval orchestrator (`smartRetrieval` in
`app/api/chat-pdf/route.js`)

The two vector-search strategies call `searchSimilarChunks` (embedding
provider plus Postgres); their result lists are oracle parameters `s1`
(threshold 0.6, topK 5) and `s2` (threshold 0.4, topK 8).  `docChunks` is the
document's chunk list in `chunkIndex` order, as read by the two Prisma
`findMany` fallback queries; `totalChunks` is `pdfRecord.totalChunks`.  The
element type is generic because the vector strategies return formatted rows
while the fallbacks return raw chunk records; only list structure matters
here. -/

/-- Strategy 3: `allChunks` is read with `take: 100`, then
`.filter((_, idx) => idx % step === 0).slice(0, 10)` with
`step = Math.max(1, Math.ceil(totalChunks / 10))`. -/
def uniformSample {α : Type} (docChunks : List α) (totalChunks : Nat) : List α :=
  let step := max 1 ((totalChunks + 9) / 10)
  ((((docChunks.take 100).enum).filter (fun p => p.1 % step == 0)).map
    Prod.snd).take 10

/-- `smartRetrieval`, instrumented with the list of strategy numbers that were
invoked (first component) alongside the returned chunk list (second
component). -/
def smartRetrievalT {α : Type} (s1 s2 : List α) (docChunks : List α)
    (totalChunks : Nat) : List Nat × List α :=
  if 3 ≤ s1.length then ([1], s1)
  else if 3 ≤ s2.length then ([1, 2], s2)
  else
    let sampled := uniformSample docChunks totalChunks
    if 0 < sampled.length then ([1, 2, 3], sampled)
    else ([1, 2, 3, 4], docChunks.take 10)

/-- The chunk list returned by `smartRetrieval`. -/
def smartRetrieval {α : Type} (s1 s2 : List α) (docChunks : List α)
    (totalChunks : Nat) : List α :=
  (smartRetrievalT s1 s2 docChunks totalChunks).2

/-! ## Vector store similarity search (`searchSimilarChunks` in
`lib/rag/retrieval.js`)

The SQL query joins `document_chunks` with `pdfs`, keeps rows with a non-null
embedding, optionally scopes to one `pdfId`, keeps rows with
`1 - (embedding <=> queryVector) >= threshold`, orders by distance ascending
(similarity descending) and limits to `topK`.  The cosine similarity computed
by Postgres is modelled as an oracle `sim`; ties in the `ORDER BY` are
determinized by a stable merge sort. -/

/-- A stored chunk row, already joined with its owning `pdfs` row (the join is
total: every chunk's `pdf_id` references an existing pdf). -/
structure StoredChunk where
  id : String
  pdfId : String
  chunkIndex : Nat
  content : String
  embedding : Option (List ℚ)
  pageNumber : Option Nat
  tokenCount : Nat
  pdfName : String
  pdfPath : String
deriving DecidableEq

/-- A formatted result row of `searchSimilarChunks` (metadata field omitted). -/
structure ResultRow where
  id : String
  pdfId : String
  pdfName : String
  pdfPath : String
  chunkIndex : Nat
  content : String
  pageNumber : Option Nat
  tokenCount : Nat
  similarity : ℚ
deriving DecidableEq

/-- `parseFloat(row.similarity.toFixed(4))`: round to 4 decimal places, ties
away from zero for the nonnegative similarities at hand (ECMAScript picks the
larger candidate on ties, as does Mathlib's `round`). -/
def roundTo4 (q : ℚ) : ℚ :=
  ((round (q * 10000) : ℤ) : ℚ) / 10000

/-- The optional `AND p.id = $pdfId` clause: scope the store to one
document. -/
def chunkScope (store : List StoredChunk) (pdfId : Option String) :
    List StoredChunk :=
  store.filter (fun c =>
    match pdfId with
    | some p => c.pdfId == p
    | none => true)

/-- The `WHERE dc.embedding IS NOT NULL` clause together with the similarity
computation `1 - (dc.embedding <=> $queryVector)`: keep rows with an
embedding, paired with their similarity. -/
def chunkSimPairs (sim : List ℚ → List ℚ → ℚ) (queryVec : List ℚ)
    (store : List StoredChunk) (pdfId : Option String) :
    List (StoredChunk × ℚ) :=
  (chunkScope store pdfId).filterMap (fun c =>
    match c.embedding with
    | some e => some (c, sim queryVec e)
    | none => none)

/-- The `similarity >= $threshold` clause. -/
def chunkAboveThreshold (sim : List ℚ → List ℚ → ℚ) (queryVec : List ℚ)
    (store : List StoredChunk) (pdfId : Option String) (threshold : ℚ) :
    List (StoredChunk × ℚ) :=
  (chunkSimPairs sim queryVec store pdfId).filter
    (fun p => decide (threshold ≤ p.2))

/-- The `ORDER BY dc.embedding <=> $queryVector` clause: distance ascending is
similarity descending; ties, arbitrary in SQL, are determinized by a stable
merge sort. -/
def chunkOrder (sim : List ℚ → List ℚ → ℚ) (queryVec : List ℚ)
    (store : List StoredChunk) (pdfId : Option String) (threshold : ℚ) :
    List (StoredChunk × ℚ) :=
  (chunkAboveThreshold sim queryVec store pdfId threshold).mergeSort
    (fun p q' => decide (q'.2 ≤ p.2))

/-- The result formatting of `searchSimilarChunks`, including the
`toFixed(4)` rounding of the similarity. -/
def formatRow (p : StoredChunk × ℚ) : ResultRow :=
  { id := p.1.id, pdfId := p.1.pdfId, pdfName := p.1.pdfName,
    pdfPath := p.1.pdfPath, chunkIndex := p.1.chunkIndex,
    content := p.1.content, pageNumber := p.1.pageNumber,
    tokenCount := p.1.tokenCount, similarity := roundTo4 p.2 }

/-- The `searchSimilarChunks` query (with its `LIMIT $topK`) and result
formatting. -/
def searchSimilarChunks (sim : List ℚ → List ℚ → ℚ) (queryVec : List ℚ)
    (store : List StoredChunk) (pdfId : Option String) (topK : Nat)
    (threshold : ℚ) : List ResultRow :=
  ((chunkOrder sim queryVec store pdfId threshold).take topK).map formatRow

/-! ## Batch embedding (`embedBatch` in `lib/rag/embeddings.js`)

`batchResp b` is the outcome of the batched provider call for the `b`-th
batch: `some data` is a parsed OK response whose `data` array was mapped to
its embedding vectors, `none` is any thrown error (non-OK HTTP response,
network failure, malformed body).  A `some data` whose length differs from the
batch length is thrown by the source's own validation and lands in the same
per-item retry path.  `itemEmb k` is the outcome of the `embedText` retry for
the `k`-th input text (`none`: the retry also threw, so the source substitutes
`new Array(1024).fill(0)`). -/

/-- `new Array(n).fill(0)`. -/
def zeroVec (n : Nat) : List ℚ := List.replicate n 0

/-- The per-item retry loop over one failed batch of `count` texts starting at
global index `start`: each item gets its `embedText` result, or the hard-coded
1024-dimensional zero vector when the retry fails too. -/
def retryItems (itemEmb : Nat → Option (List ℚ)) (start count : Nat) :
    List (List ℚ) :=
  (List.range count).map (fun j => (itemEmb (start + j)).getD (zeroVec 1024))

/-- The batch loop `for (let i = 0; i < texts.length; i += batchSize)`.
The first argument is fuel bounding the number of iterations; the `0, _ :: _`
arm is unreachable whenever the fuel is at least the list length and
`batchSize` is positive. -/
def embedBatchGo (batchSize : Nat) (batchResp : Nat → Option (List (List ℚ)))
    (itemEmb : Nat → Option (List ℚ)) :
    Nat → Nat → List String → List (List ℚ)
  | _, _, [] => []
  | 0, _, _ :: _ => []
  | fuel + 1, i, t :: ts =>
    let batch := (t :: ts).take batchSize
    let rest := (t :: ts).drop batchSize
    let vecs :=
      match batchResp (i / batchSize) with
      | some data =>
          if data.length = batch.length then data
          else retryItems itemEmb i batch.length
      | none => retryItems itemEmb i batch.length
    vecs ++ embedBatchGo batchSize batchResp itemEmb fuel (i + batchSize) rest

/-- The vector list produced by a run of `embedBatch` that does not throw. -/
def embedBatchRun (texts : List String) (batchSize : Nat)
    (batchResp : Nat → Option (List (List ℚ)))
    (itemEmb : Nat → Option (List ℚ)) : List (List ℚ) :=
  if texts.isEmpty then []
  else embedBatchGo batchSize batchResp itemEmb texts.length 0 texts

/-- `embedBatch(texts, { batchSize })`: empty input short-circuits to `[]`, a
missing API key throws, otherwise the batch loop runs to completion. -/
def embedBatch (hasKey : Bool) (texts : List String) (batchSize : Nat)
    (batchResp : Nat → Option (List (List ℚ)))
    (itemEmb : Nat → Option (List ℚ)) : Except String (List (List ℚ)) :=
  if texts.isEmpty then .ok []
  else if !hasKey then .error "❌ OPENAI_API_KEY 未配置"
  else .ok (embedBatchRun texts batchSize batchResp itemEmb)

/-! ## Background ingestion (`processPdfInBackground` in
`app/api/pdf/upload/route.js`)

`pdf-parse`, `chunkText` and `embedBatch` are modelled as `Except`-valued
oracles carrying the thrown message on failure; `insertOk i` is the outcome of
the `i`-th per-chunk database insert (either the raw-SQL or the ORM path,
depending on whether a vector is present — both are covered by the oracle). -/

/-- A chunk record produced by `chunkText`. -/
structure ChunkRec where
  chunkIndex : Nat
  content : String
  tokenCount : Nat
  pageNumber : Option Nat
deriving DecidableEq

/-- The final status mutation performed on the `PDF` row by the background
job. -/
inductive IngestResult where
  | ready (totalChunks : Nat) (totalPages : Nat)
  | failed (errorMessage : String)
deriving DecidableEq

/-- The per-chunk insert loop with its `successCount`/`failCount` accumulators;
more than 5 failed inserts abort the job with a thrown error. -/
def ingestLoop (insertOk : Nat → Bool) : List Nat → Nat → Nat → Except String Nat
  | [], s, _ => .ok s
  | i :: rest, s, f =>
    if insertOk i then ingestLoop insertOk rest (s + 1) f
    else if 5 < f + 1 then
      .error ("保存失败过多 (" ++ toString (f + 1) ++ " 个)，停止处理")
    else ingestLoop insertOk rest s (f + 1)

/-- `processPdfInBackground(pdfId, filePath)`: parse, chunk, embed, insert
chunk by chunk, then mutate the document row to `ready` with
`totalChunks := successCount`, or to `failed` with the thrown error's message
if any stage threw. -/
def processPdfInBackground
    (parseR : Except String (String × Nat))
    (chunkR : String → Except String (List ChunkRec))
    (embedR : Except String (List (List ℚ)))
    (insertOk : Nat → Bool) : IngestResult :=
  match parseR with
  | .error e => .failed e
  | .ok (text, numpages) =>
    match chunkR text with
    | .error e => .failed e
    | .ok chunks =>
      match embedR with
      | .error e => .failed e
      | .ok _vectors =>
        match ingestLoop insertOk (List.range chunks.length) 0 0 with
        | .error e => .failed e
        | .ok successCount => .ready successCount numpages

/-! ## Request gate of the chat endpoint (`POST` in
`app/api/chat-pdf/route.js`)

The prelude of the handler — authentication, parameter validation, record
lookup and the document-status checks — runs strictly before `smartRetrieval`
is called, and `smartRetrieval` (hence the embedding service) is reached only
on the final fall-through branch. -/

/-- The `PDF` row as read by `prisma.PDF.findFirst`. -/
structure PdfRecord where
  id : String
  userId : String
  name : String
  status : String
  errorMessage : Option String
  totalPages : Option Nat
  totalChunks : Nat
deriving DecidableEq

/-- What the handler prelude decides: an early JSON rejection (HTTP status,
`error` field, optional `details` field, optional echoed document `status`
field), or falling through to the retrieval stage. -/
inductive PostDecision where
  | reject (httpStatus : Nat) (error : String) (details : Option String)
      (docStatus : Option String)
  | proceedToRetrieval (record : PdfRecord)
deriving DecidableEq

/-- `message.trim()`: strip leading and trailing whitespace (ASCII subset). -/
def trimWS (s : String) : String :=
  String.mk (((s.data.dropWhile isSpaceChar).reverse.dropWhile
    isSpaceChar).reverse)

/-- The handler prelude: session check, `message`/`pdfId` validation, record
lookup, and the three document-status checks, in source order.  The falsiness
test `!message?.trim()` is the emptiness of the trimmed message. -/
def postGate (loggedIn : Bool) (message : String) (pdfId : Option String)
    (lookup : Option PdfRecord) : PostDecision :=
  if !loggedIn then .reject 401 "请先登录" none none
  else if trimWS message == "" then .reject 400 "消息不能为空" none none
  else
    match pdfId with
    | none => .reject 400 "请先选择 PDF 文件" none none
    | some _ =>
      match lookup with
      | none => .reject 404 "PDF 文件不存在或无权访问" none none
      | some r =>
        if r.status == "processing" then
          .reject 400 "PDF 文件正在处理中，请稍后再试" none (some r.status)
        else if r.status == "failed" then
          .reject 400 "PDF 文件处理失败" r.errorMessage none
        else if r.status != "ready" then
          .reject 400 ("PDF 文件状态异常: " ++ r.status) none none
        else .proceedToRetrieval r

/-- `smartRetrieval` — and through it the embedding service — is invoked
exactly when the gate falls through. -/
def invokesRetrieval : PostDecision → Bool
  | .proceedToRetrieval _ => true
  | .reject _ _ _ _ => false

/-! ## Helper lemmas -/

/-- A nonempty document makes strategy 3's uniform sample nonempty: index 0
always satisfies `idx % step === 0`. -/
theorem uniformSample_length_pos {α : Type} (docChunks : List α)
    (totalChunks : Nat) (h : docChunks ≠ []) :
    0 < (uniformSample docChunks totalChunks).length := by
  obtain ⟨a, l, rfl⟩ := List.exists_cons_of_ne_nil h
  have h100 : (100 : Nat) = 99 + 1 := rfl
  have h10 : (10 : Nat) = 9 + 1 := rfl
  simp only [uniformSample, h100, h10, List.take_succ_cons, List.enum_cons]
  rw [List.filter_cons_of_pos (by simp)]
  simp

/-! ## Claims about `smartRetrieval` -/

/-- Claim C1: `smartRetrieval` attempts its four strategies in fixed order —
vector search (threshold 0.6, topK 5), vector search (threshold 0.4, topK 8),
uniform sampling of about 10 chunks, first 10 chunks in index order — stopping
at the first strategy that yields at least 3 chunks; it never invokes strategy
N+1 when strategy N already returned 3 or more chunks, returns exactly the
result of the first strategy meeting that bar, and runs strategy 4 only when
strategy 3 yields 0 chunks. -/
theorem claim_C1_escalation {α : Type} (s1 s2 docChunks : List α)
    (totalChunks : Nat) :
    (3 ≤ s1.length →
      smartRetrievalT s1 s2 docChunks totalChunks = ([1], s1)) ∧
    (s1.length < 3 → 3 ≤ s2.length →
      smartRetrievalT s1 s2 docChunks totalChunks = ([1, 2], s2)) ∧
    (s1.length < 3 → s2.length < 3 →
      0 < (uniformSample docChunks totalChunks).length →
      smartRetrievalT s1 s2 docChunks totalChunks =
        ([1, 2, 3], uniformSample docChunks totalChunks)) ∧
    (s1.length < 3 → s2.length < 3 →
      (uniformSample docChunks totalChunks).length = 0 →
      smartRetrievalT s1 s2 docChunks totalChunks =
        ([1, 2, 3, 4], docChunks.take 10)) := by
  refine ⟨fun h1 => ?_, fun h1 h2 => ?_, fun h1 h2 h3 => ?_, fun h1 h2 h3 => ?_⟩ <;>
    simp only [smartRetrievalT] <;> split_ifs <;> first | rfl | omega

/-- Witness for C1 at a concrete input where strategy 1 meets the bar. -/
theorem claim_C1_witness :
    smartRetrievalT [10, 20, 30] [] ([] : List Nat) 0 = ([1], [10, 20, 30]) :=
  (claim_C1_escalation [10, 20, 30] [] ([] : List Nat) 0).1 (by decide)

/-- Claim C2: for every document with at least one stored chunk, and whatever
(possibly empty) lists the two vector-search strategies return, `smartRetrieval`
returns at least one chunk — the fallback strategies guarantee a non-empty
result. -/
theorem claim_C2_nonempty {α : Type} (s1 s2 docChunks : List α)
    (totalChunks : Nat) (hne : docChunks ≠ []) :
    1 ≤ (smartRetrieval s1 s2 docChunks totalChunks).length := by
  simp only [smartRetrieval, smartRetrievalT]
  split_ifs with h1 h2 h3
  · show 1 ≤ s1.length
    omega
  · show 1 ≤ s2.length
    omega
  · show 1 ≤ (uniformSample docChunks totalChunks).length
    omega
  · exact absurd (uniformSample_length_pos docChunks totalChunks hne) h3

/-- Witness for C2: a one-chunk document with both vector strategies starved. -/
theorem claim_C2_witness :
    1 ≤ (smartRetrieval [] [] [42] 1).length :=
  claim_C2_nonempty [] [] [42] 1 (by decide)

/-! ## Claims about `rewriteQuery` -/

/-- The branch step sets `queryType` to `"fallback"` when its LLM call throws,
and otherwise to `"decomposition"` or `"expansion"` according to the
compound-marker detector, whatever the call's result. -/
theorem rewriteStage2_queryType (r1 : RewriteResult) (o2 : LLMOutcome) :
    (rewriteStage2 r1 o2).queryType =
      if isThrow o2 then "fallback"
      else if isCompoundQuery r1.finalQuery then "decomposition"
      else "expansion" := by
  unfold rewriteStage2
  rcases o2 with msg | _ | c
  · split_ifs <;> simp_all [isThrow]
  · split_ifs <;> simp_all [isThrow]
  · rcases c with _ | s <;> split_ifs <;> simp_all [isThrow]

/-- The branch step leaves `finalQuery` unchanged when its LLM call does not
deliver usable content. -/
theorem rewriteStage2_finalQuery_of_failure (r1 : RewriteResult)
    (o2 : LLMOutcome) (h : isStageFailure o2 = true) :
    (rewriteStage2 r1 o2).finalQuery = r1.finalQuery := by
  unfold rewriteStage2
  rcases o2 with msg | _ | c
  · split_ifs <;> simp_all
  · split_ifs <;> simp_all
  · rcases c with _ | s
    · split_ifs <;> simp_all
    · simp [isStageFailure] at h

/-- Claim C3: `rewriteQuery` never throws — it is a total function of the
original query and the two LLM-call outcomes — and when both stages fail to
deliver usable content (thrown exception, non-OK response, or empty reply),
`finalQuery` degrades all the way to the original input query, while
`queryType` records the path taken: `"fallback"` when a call threw, otherwise
the branch chosen by the compound-marker detector on the (unchanged) query. -/
theorem claim_C3_degradation (q : String) (o1 o2 : LLMOutcome)
    (h1 : isStageFailure o1 = true) (h2 : isStageFailure o2 = true) :
    (rewriteQuery q o1 o2).finalQuery = q ∧
    (rewriteQuery q o1 o2).queryType =
      (if isThrow o1 || isThrow o2 then "fallback"
       else if isCompoundQuery q then "decomposition"
       else "expansion") := by
  rcases o1 with msg | _ | c
  · exact ⟨rfl, rfl⟩
  · have he : rewriteQuery q .notOk o2 =
        rewriteStage2 ⟨q, q, "original", ["标准化失败"], none, none, none⟩ o2 :=
      rfl
    refine ⟨?_, ?_⟩
    · rw [he, rewriteStage2_finalQuery_of_failure _ _ h2]
    · rw [he, rewriteStage2_queryType]
      simp [isThrow]
  · rcases c with _ | s
    · have he : rewriteQuery q (.ok none) o2 =
          rewriteStage2 ⟨q, q, "original", ["标准化结果为空"], none, none, none⟩ o2 :=
        rfl
      refine ⟨?_, ?_⟩
      · rw [he, rewriteStage2_finalQuery_of_failure _ _ h2]
      · rw [he, rewriteStage2_queryType]
        simp [isThrow]
    · simp [isStageFailure] at h1

/-- Witness for C3: both calls answer non-OK on a non-compound query. -/
theorem claim_C3_witness :
    (rewriteQuery "你好" .notOk .notOk).finalQuery = "你好" ∧
    (rewriteQuery "你好" .notOk .notOk).queryType =
      (if isThrow LLMOutcome.notOk || isThrow LLMOutcome.notOk then "fallback"
       else if isCompoundQuery "你好" then "decomposition"
       else "expansion") :=
  claim_C3_degradation "你好" .notOk .notOk (by decide) (by decide)

/-- Claim C10 (implicit): `rewriteQuery` never returns `queryType`
`"original"`, although `"original"` is its declared initial value — the branch
step unconditionally overwrites `queryType` with `"decomposition"` or
`"expansion"` before its LLM call (even when that call fails, the failure is
recorded only in `steps`), and any thrown exception sets it to `"fallback"`;
so the returned `queryType` is always one of those three values. -/
theorem claim_C10_queryType_never_original (q : String) (o1 o2 : LLMOutcome) :
    ((rewriteQuery q o1 o2).queryType = "decomposition" ∨
     (rewriteQuery q o1 o2).queryType = "expansion" ∨
     (rewriteQuery q o1 o2).queryType = "fallback") ∧
    (rewriteQuery q o1 o2).queryType ≠ "original" := by
  have hk : ∀ r1 : RewriteResult,
      (rewriteStage2 r1 o2).queryType = "decomposition" ∨
      (rewriteStage2 r1 o2).queryType = "expansion" ∨
      (rewriteStage2 r1 o2).queryType = "fallback" := by
    intro r1
    rw [rewriteStage2_queryType]
    split_ifs <;> simp
  have hmain :
      (rewriteQuery q o1 o2).queryType = "decomposition" ∨
      (rewriteQuery q o1 o2).queryType = "expansion" ∨
      (rewriteQuery q o1 o2).queryType = "fallback" := by
    rcases o1 with msg | _ | c
    · right; right; rfl
    · exact hk _
    · rcases c with _ | s
      · exact hk _
      · exact hk _
  refine ⟨hmain, ?_⟩
  rcases hmain with h | h | h <;> rw [h] <;> decide

/-- The branch step on a compound query whose decomposition call does not
throw: `queryType` is `"decomposition"`, and on a successful reply the merged
sub-questions become `finalQuery`. -/
theorem rewriteStage2_compound (r1 : RewriteResult) (o2 : LLMOutcome)
    (h2 : isThrow o2 = false) (hc : isCompoundQuery r1.finalQuery = true) :
    (rewriteStage2 r1 o2).queryType = "decomposition" ∧
    ∀ sub, o2 = .ok (some sub) →
      (rewriteStage2 r1 o2).finalQuery = mergeSubQueries sub := by
  constructor
  · rw [rewriteStage2_queryType, h2]
    simp [hc]
  · intro sub hsub
    subst hsub
    unfold rewriteStage2
    rw [if_pos hc]

/-- Claim C7, corrected: the compound-marker detector tests only the seven
Chinese markers `和 与 或者 以及 区别 对比 比较` against the post-normalization
query, so an English query such as "What are the differences between plan A
and plan B?" does not trigger it (see the counterexample); when the
post-normalization query does contain one of those markers and neither LLM
call throws, `queryType` is `"decomposition"` and, when the decomposition call
succeeds, `finalQuery` is the sub-questions with the numbering stripped and
newline runs joined as single spaces. -/
theorem claim_C7_amended (q : String) (o1 o2 : LLMOutcome)
    (h1 : isThrow o1 = false) (h2 : isThrow o2 = false)
    (hc : isCompoundQuery (stage1Final q o1) = true) :
    (rewriteQuery q o1 o2).queryType = "decomposition" ∧
    ∀ sub, o2 = .ok (some sub) →
      (rewriteQuery q o1 o2).finalQuery = mergeSubQueries sub := by
  rcases o1 with msg | _ | c
  · simp [isThrow] at h1
  · exact rewriteStage2_compound ⟨q, q, "original", ["标准化失败"], none, none, none⟩
      o2 h2 hc
  · rcases c with _ | s
    · exact rewriteStage2_compound
        ⟨q, q, "original", ["标准化结果为空"], none, none, none⟩ o2 h2 hc
    · exact rewriteStage2_compound
        ⟨q, s, "original", ["标准化完成"], some s, none, none⟩ o2 h2 hc

/-- Witness for the corrected C7: a Chinese compound query (markers 对比, 和),
normalization non-OK, decomposition succeeding with two numbered
sub-questions. -/
theorem claim_C7_witness :
    (rewriteQuery "对比A和B" .notOk (.ok (some "1. 甲\n2. 乙"))).queryType =
      "decomposition" ∧
    (rewriteQuery "对比A和B" .notOk (.ok (some "1. 甲\n2. 乙"))).finalQuery =
      mergeSubQueries "1. 甲\n2. 乙" := by
  have h := claim_C7_amended "对比A和B" .notOk (.ok (some "1. 甲\n2. 乙"))
    (by decide) (by decide) (by decide)
  exact ⟨h.1, h.2 _ rfl⟩

/-- Counterexample for C7 as stated: the English query of the claim contains
none of the Chinese markers, so with the normalization call failing (the query
reaches the detector unchanged) the rewrite takes the expansion branch, not
decomposition. -/
theorem claim_C7_counterexample :
    (rewriteQuery "What are the differences between plan A and plan B?"
        .notOk .notOk).queryType = "expansion" ∧
    ¬ (rewriteQuery "What are the differences between plan A and plan B?"
        .notOk .notOk).queryType = "decomposition" := by
  decide

/-! ## Claim about the chat endpoint's document-state gate -/

/-- Claim C8: a question against a document whose status is `"processing"` or
`"failed"` is rejected before any retrieval attempt with a state-specific
message (for `"failed"`, the document's own `errorMessage` is surfaced in
`details`), and the retrieval stage — hence `smartRetrieval` and the embedding
service, which the handler reaches only through it — is never invoked. -/
theorem claim_C8_state_gate (message : String) (pid : String) (r : PdfRecord)
    (hmsg : trimWS message ≠ "") :
    (r.status = "processing" →
      postGate true message (some pid) (some r) =
        .reject 400 "PDF 文件正在处理中，请稍后再试" none (some r.status) ∧
      invokesRetrieval (postGate true message (some pid) (some r)) = false) ∧
    (r.status = "failed" →
      postGate true message (some pid) (some r) =
        .reject 400 "PDF 文件处理失败" r.errorMessage none ∧
      invokesRetrieval (postGate true message (some pid) (some r)) = false) := by
  have hm : (trimWS message == "") = false := by
    simpa using hmsg
  constructor
  · intro hs
    have hg : postGate true message (some pid) (some r) =
        .reject 400 "PDF 文件正在处理中，请稍后再试" none (some r.status) := by
      simp [postGate, hm, hs]
    exact ⟨hg, by rw [hg]; rfl⟩
  · intro hs
    have hg : postGate true message (some pid) (some r) =
        .reject 400 "PDF 文件处理失败" r.errorMessage none := by
      simp [postGate, hm, hs]
    exact ⟨hg, by rw [hg]; rfl⟩

/-- Witness for C8: a concrete logged-in request against a `"processing"`
document. -/
theorem claim_C8_witness :
    postGate true "这份文件讲什么" (some "pdf1")
        (some ⟨"pdf1", "u1", "报告.pdf", "processing", none, none, 0⟩) =
      .reject 400 "PDF 文件正在处理中，请稍后再试" none (some "processing") ∧
    invokesRetrieval (postGate true "这份文件讲什么" (some "pdf1")
        (some ⟨"pdf1", "u1", "报告.pdf", "processing", none, none, 0⟩)) = false :=
  (claim_C8_state_gate "这份文件讲什么" "pdf1"
    ⟨"pdf1", "u1", "报告.pdf", "processing", none, none, 0⟩ (by decide)).1 rfl

/-! ## Claim about the ingestion job -/

/-- The insert loop completes with `successCount` equal to the number of
successful inserts whenever at most 5 inserts fail along the way. -/
theorem ingestLoop_ok (insertOk : Nat → Bool) :
    ∀ (idxs : List Nat) (s f : Nat),
      f + idxs.countP (fun i => !insertOk i) ≤ 5 →
      ingestLoop insertOk idxs s f =
        .ok (s + idxs.countP (fun i => insertOk i)) := by
  intro idxs
  induction idxs with
  | nil =>
    intro s f h
    simp [ingestLoop]
  | cons i rest ih =>
    intro s f h
    rw [List.countP_cons] at h
    by_cases hi : insertOk i
    · rw [show ingestLoop insertOk (i :: rest) s f =
          ingestLoop insertOk rest (s + 1) f by simp [ingestLoop, hi]]
      rw [ih (s + 1) f (by simp [hi] at h; omega)]
      rw [List.countP_cons]
      simp [hi]
      omega
    · have hi' : insertOk i = false := by simpa using hi
      have hf : ¬ 5 < f + 1 := by
        simp [hi'] at h
        omega
      rw [show ingestLoop insertOk (i :: rest) s f =
          ingestLoop insertOk rest s (f + 1) by simp [ingestLoop, hi', hf]]
      rw [ih s (f + 1) (by simp [hi'] at h; omega)]
      rw [List.countP_cons]
      simp [hi']

/-- Claim C9: ingestion tolerates partial embedding failure — whatever vector
list `embedBatch` returned (including zero-vector substitutes), the job
transitions the document to `ready` and records `totalChunks` as the number of
successfully stored chunks (not the chunker's count), as long as at most 5
inserts fail; and any job-level error (pdf parse, chunking, or embedding
throwing) transitions the document to `failed` with that error's message. -/
theorem claim_C9_ingestion (text : String) (numpages : Nat)
    (chunks : List ChunkRec) (vectors : List (List ℚ))
    (chunkR : String → Except String (List ChunkRec))
    (insertOk : Nat → Bool)
    (hchunk : chunkR text = .ok chunks)
    (hfail : (List.range chunks.length).countP (fun i => !insertOk i) ≤ 5) :
    processPdfInBackground (.ok (text, numpages)) chunkR (.ok vectors)
        insertOk =
      .ready ((List.range chunks.length).countP (fun i => insertOk i))
        numpages ∧
    (∀ e, processPdfInBackground (.error e) chunkR (.ok vectors) insertOk =
      .failed e) ∧
    (∀ e, processPdfInBackground (.ok (text, numpages)) chunkR (.error e)
      insertOk = .failed e) ∧
    (∀ e (chunkR2 : String → Except String (List ChunkRec)),
      chunkR2 text = .error e →
      processPdfInBackground (.ok (text, numpages)) chunkR2 (.ok vectors)
        insertOk = .failed e) := by
  refine ⟨?_, fun e => rfl, fun e => ?_, fun e chunkR2 h2 => ?_⟩
  · simp only [processPdfInBackground, hchunk]
    rw [ingestLoop_ok insertOk (List.range chunks.length) 0 0
      (by simpa using hfail)]
    simp
  · simp [processPdfInBackground, hchunk]
  · simp [processPdfInBackground, h2]

/-- Witness for C9: a two-chunk document whose second embedding failed to a
zero vector, with all inserts succeeding. -/
theorem claim_C9_witness :
    processPdfInBackground (.ok ("正文", 3))
        (fun t => .ok [⟨0, t, 1, none⟩, ⟨1, t, 1, none⟩])
        (.ok [[(1 : ℚ)], zeroVec 1024]) (fun _ => true) =
      .ready 2 3 :=
  (claim_C9_ingestion "正文" 3 [⟨0, "正文", 1, none⟩, ⟨1, "正文", 1, none⟩]
    [[(1 : ℚ)], zeroVec 1024] (fun t => .ok [⟨0, t, 1, none⟩, ⟨1, t, 1, none⟩])
    (fun _ => true) rfl (by decide)).1

/-! ## Claims about `embedBatch` -/

/-- Each iteration of the batch loop contributes exactly one vector per input
text of its batch, whatever the batch and retry outcomes. -/
theorem embedBatchGo_length (batchSize : Nat) (hbs : 0 < batchSize)
    (batchResp : Nat → Option (List (List ℚ)))
    (itemEmb : Nat → Option (List ℚ)) :
    ∀ (fuel : Nat) (ts : List String) (i : Nat), ts.length ≤ fuel →
      (embedBatchGo batchSize batchResp itemEmb fuel i ts).length =
        ts.length := by
  intro fuel
  induction fuel with
  | zero =>
    intro ts i h
    cases ts with
    | nil => simp [embedBatchGo]
    | cons t ts2 => simp at h
  | succ n ih =>
    intro ts i h
    cases ts with
    | nil => simp [embedBatchGo]
    | cons t ts2 =>
      simp only [embedBatchGo]
      rw [List.length_append]
      rw [ih ((t :: ts2).drop batchSize) (i + batchSize)
        (by simp only [List.length_drop, List.length_cons] at h ⊢; omega)]
      have hvecs : (match batchResp (i / batchSize) with
          | some data =>
              if data.length = ((t :: ts2).take batchSize).length then data
              else retryItems itemEmb i ((t :: ts2).take batchSize).length
          | none =>
              retryItems itemEmb i ((t :: ts2).take batchSize).length).length =
          ((t :: ts2).take batchSize).length := by
        rcases hb : batchResp (i / batchSize) with _ | data
        · simp [retryItems]
        · dsimp only
          split_ifs with hd
          · exact hd
          · simp [retryItems]
      rw [hvecs]
      simp only [List.length_take, List.length_drop, List.length_cons]
      omega

/-- When the batch containing input `j` failed, the `j`-th output vector is
input `j`'s individual retry result, or the 1024-dimensional zero vector if
the retry failed too. -/
theorem embedBatchGo_getElem_none (batchSize : Nat) (hbs : 0 < batchSize)
    (batchResp : Nat → Option (List (List ℚ)))
    (itemEmb : Nat → Option (List ℚ)) :
    ∀ (fuel : Nat) (ts : List String) (i j : Nat), ts.length ≤ fuel →
      j < ts.length → batchSize ∣ i →
      batchResp ((i + j) / batchSize) = none →
      (embedBatchGo batchSize batchResp itemEmb fuel i ts)[j]? =
        some ((itemEmb (i + j)).getD (zeroVec 1024)) := by
  intro fuel
  induction fuel with
  | zero =>
    intro ts i j h hj hdvd hb
    cases ts with
    | nil => simp at hj
    | cons t ts2 => simp at h
  | succ n ih =>
    intro ts i j h hj hdvd hb
    cases ts with
    | nil => simp at hj
    | cons t ts2 =>
      by_cases hjb : j < batchSize
      · have hdiv : (i + j) / batchSize = i / batchSize := by
          obtain ⟨k, rfl⟩ := hdvd
          rw [Nat.mul_add_div hbs, Nat.div_eq_of_lt hjb,
            Nat.mul_div_cancel_left _ hbs]
          omega
        have hb2 : batchResp (i / batchSize) = none := by
          rw [← hdiv]
          exact hb
        simp only [embedBatchGo]
        rw [hb2]
        have hjm : j < min batchSize (ts2.length + 1) := by
          simp only [List.length_cons] at hj
          omega
        rw [List.getElem?_append,
          if_pos (by simp only [retryItems, List.length_map,
            List.length_range, List.length_take, List.length_cons]; omega)]
        simp [retryItems, List.getElem?_map, List.getElem?_range hjm]
      · push_neg at hjb
        simp only [embedBatchGo]
        have hvlen : (match batchResp (i / batchSize) with
            | some data =>
                if data.length = (List.take batchSize (t :: ts2)).length then
                  data
                else retryItems itemEmb i (List.take batchSize (t :: ts2)).length
            | none =>
                retryItems itemEmb i
                  (List.take batchSize (t :: ts2)).length).length =
            (List.take batchSize (t :: ts2)).length := by
          cases batchResp (i / batchSize) with
          | none => simp [retryItems]
          | some data =>
            dsimp only
            split_ifs with hd
            · exact hd
            · simp [retryItems]
        have hmbs : (List.take batchSize (t :: ts2)).length = batchSize := by
          simp only [List.length_take, List.length_cons]
          simp only [List.length_cons] at hj
          omega
        rw [List.getElem?_append_right (by rw [hvlen, hmbs]; omega), hvlen, hmbs]
        rw [ih ((t :: ts2).drop batchSize) (i + batchSize) (j - batchSize)
          (by simp only [List.length_drop, List.length_cons] at h ⊢; omega)
          (by simp only [List.length_drop, List.length_cons] at hj ⊢; omega)
          (dvd_add hdvd dvd_rfl)
          (by rw [show i + batchSize + (j - batchSize) = i + j from by omega];
              exact hb),
          show i + batchSize + (j - batchSize) = i + j from by omega]

/-- The vector list of a non-throwing `embedBatch` run is as long as the
input. -/
theorem embedBatchRun_length (texts : List String) (batchSize : Nat)
    (hbs : 0 < batchSize) (batchResp : Nat → Option (List (List ℚ)))
    (itemEmb : Nat → Option (List ℚ)) :
    (embedBatchRun texts batchSize batchResp itemEmb).length = texts.length := by
  unfold embedBatchRun
  split_ifs with he
  · rw [List.isEmpty_iff] at he
    simp [he]
  · exact embedBatchGo_length batchSize hbs batchResp itemEmb
      texts.length texts 0 le_rfl

/-- Top-level form of `embedBatchGo_getElem_none`: position `j` of the output
corresponds to input `j` along the failed-batch retry path. -/
theorem embedBatchRun_getElem_none (texts : List String) (batchSize : Nat)
    (hbs : 0 < batchSize) (batchResp : Nat → Option (List (List ℚ)))
    (itemEmb : Nat → Option (List ℚ)) (j : Nat)
    (hj : j < texts.length) (hb : batchResp (j / batchSize) = none) :
    (embedBatchRun texts batchSize batchResp itemEmb)[j]? =
      some ((itemEmb j).getD (zeroVec 1024)) := by
  unfold embedBatchRun
  split_ifs with he
  · rw [List.isEmpty_iff] at he
    subst he
    simp at hj
  · have h := embedBatchGo_getElem_none batchSize hbs batchResp itemEmb
      texts.length texts 0 j le_rfl hj (dvd_zero _) (by simpa using hb)
    simpa using h

/-- Claim C4: with a configured API credential, `embedBatch` returns an array
whose length equals the number of input texts and whose `j`-th element
corresponds to the `j`-th input, even when whole batches or individual items
fail — a failed item is substituted by a zero vector instead of aborting the
job. -/
theorem claim_C4_batch_invariant (texts : List String) (batchSize : Nat)
    (batchResp : Nat → Option (List (List ℚ)))
    (itemEmb : Nat → Option (List ℚ)) (hbs : 0 < batchSize) :
    embedBatch true texts batchSize batchResp itemEmb =
      .ok (embedBatchRun texts batchSize batchResp itemEmb) ∧
    (embedBatchRun texts batchSize batchResp itemEmb).length = texts.length ∧
    ∀ j, j < texts.length → batchResp (j / batchSize) = none →
      (embedBatchRun texts batchSize batchResp itemEmb)[j]? =
        some ((itemEmb j).getD (zeroVec 1024)) := by
  refine ⟨?_, embedBatchRun_length texts batchSize hbs batchResp itemEmb,
    fun j hj hb =>
      embedBatchRun_getElem_none texts batchSize hbs batchResp itemEmb j hj hb⟩
  unfold embedBatch embedBatchRun
  cases he : texts.isEmpty
  · simp [he]
  · simp [he]

/-- Witness for C4: a two-text input whose single batch fails, with both
individual retries succeeding. -/
theorem claim_C4_witness :
    embedBatch true ["a", "b"] 50 (fun _ => none) (fun _ => some [(1 : ℚ)]) =
      .ok (embedBatchRun ["a", "b"] 50 (fun _ => none)
        (fun _ => some [(1 : ℚ)])) ∧
    (embedBatchRun ["a", "b"] 50 (fun _ => none)
      (fun _ => some [(1 : ℚ)])).length = 2 := by
  have h := claim_C4_batch_invariant ["a", "b"] 50 (fun _ => none)
    (fun _ => some [(1 : ℚ)]) (by decide)
  exact ⟨h.1, h.2.1⟩

/-- Length of the substituted zero vector. -/
theorem zeroVec_length (n : Nat) : (zeroVec n).length = n :=
  List.length_replicate n 0

set_option maxRecDepth 8192 in
/-- Counterexample for C5 as stated: with the provider's actual dimension 2
(first item's retry succeeds with a 2-dimensional vector) and the second
item's retry failing, one `embedBatch` result mixes a 2-dimensional success
with a hard-coded 1024-dimensional zero vector — the substituted dimension is
`new Array(1024).fill(0)`, not discovered from the successful response. -/
theorem claim_C5_counterexample :
    (embedBatchRun ["a", "b"] 50 (fun _ => none)
        (fun k => if k = 0 then some [(1 : ℚ), 2] else none)).map
      (fun v => v.length) = [2, 1024] ∧ (2 : Nat) ≠ 1024 := by
  constructor
  · decide
  · decide

/-- Claim C5, corrected: when an individual item still fails after retry, the
substituted zero vector has the hard-coded dimension 1024 (the default
`baai/bge-m3` dimension), regardless of the dimension of the model's
successful vectors; the dynamic dimension discovery of the spec happens only
in `processPdfInBackground` (`vectors[0]?.length || 1024`), for the SQL
`::vector(n)` cast, not in the zero-vector substitution. -/
theorem claim_C5_amended (texts : List String) (batchSize : Nat)
    (batchResp : Nat → Option (List (List ℚ)))
    (itemEmb : Nat → Option (List ℚ)) (hbs : 0 < batchSize) (j : Nat)
    (hj : j < texts.length) (hbatch : batchResp (j / batchSize) = none)
    (hitem : itemEmb j = none) :
    (embedBatchRun texts batchSize batchResp itemEmb)[j]? =
      some (zeroVec 1024) ∧ (zeroVec 1024).length = 1024 := by
  refine ⟨?_, zeroVec_length 1024⟩
  rw [embedBatchRun_getElem_none texts batchSize hbs batchResp itemEmb j hj
    hbatch, hitem]
  rfl

/-- Witness for the corrected C5: the second item of a failed batch whose
retry also fails receives the 1024-dimensional zero vector. -/
theorem claim_C5_witness :
    (embedBatchRun ["a", "b"] 50 (fun _ => none)
        (fun k => if k = 0 then some [(1 : ℚ), 2] else none))[1]? =
      some (zeroVec 1024) ∧ (zeroVec 1024).length = 1024 :=
  claim_C5_amended ["a", "b"] 50 (fun _ => none)
    (fun k => if k = 0 then some [(1 : ℚ), 2] else none) (by decide) 1
    (by decide) rfl rfl

/-! ## Claim about `searchSimilarChunks` -/

/-- Rounding to 4 decimal places is monotone. -/
theorem roundTo4_mono {a b : ℚ} (h : a ≤ b) : roundTo4 a ≤ roundTo4 b := by
  unfold roundTo4
  have h2 : round (a * 10000) ≤ round (b * 10000) := by
    rw [round_eq, round_eq]
    exact Int.floor_mono (by linarith)
  have h3 : ((round (a * 10000) : ℤ) : ℚ) ≤ ((round (b * 10000) : ℤ) : ℚ) := by
    exact_mod_cast h2
  linarith

/-- The ordered stage is sorted by similarity descending. -/
theorem chunkOrder_pairwise (sim : List ℚ → List ℚ → ℚ) (queryVec : List ℚ)
    (store : List StoredChunk) (pdfId : Option String) (threshold : ℚ) :
    List.Pairwise (fun p q' : StoredChunk × ℚ => q'.2 ≤ p.2)
      (chunkOrder sim queryVec store pdfId threshold) := by
  have hP := @List.sorted_mergeSort (StoredChunk × ℚ)
    (fun p q' => decide (q'.2 ≤ p.2))
    (fun a b c hab hbc => by
      simp only [decide_eq_true_eq] at hab hbc ⊢
      exact le_trans hbc hab)
    (fun a b => by
      simp only [Bool.or_eq_true, decide_eq_true_eq]
      exact le_total b.2 a.2)
    (chunkAboveThreshold sim queryVec store pdfId threshold)
  exact hP.imp (fun h => by simpa using h)

/-- Every element of the ordered stage is a stored chunk with an embedding,
in scope, whose similarity clears the threshold. -/
theorem chunkOrder_mem (sim : List ℚ → List ℚ → ℚ) (queryVec : List ℚ)
    (store : List StoredChunk) (pdfId : Option String) (threshold : ℚ)
    (p : StoredChunk × ℚ)
    (hp : p ∈ chunkOrder sim queryVec store pdfId threshold) :
    p.1 ∈ store ∧ p.1.embedding = some (p.1.embedding.getD []) ∧
    p.2 = sim queryVec (p.1.embedding.getD []) ∧ threshold ≤ p.2 ∧
    (∀ q', pdfId = some q' → p.1.pdfId = q') := by
  rw [chunkOrder, List.mem_mergeSort, chunkAboveThreshold,
    List.mem_filter] at hp
  obtain ⟨hpf, hthr⟩ := hp
  rw [chunkSimPairs, List.mem_filterMap] at hpf
  obtain ⟨c, hc, hfc⟩ := hpf
  rw [chunkScope, List.mem_filter] at hc
  obtain ⟨hcstore, hcscope⟩ := hc
  rcases hce : c.embedding with _ | e
  · rw [hce] at hfc
    simp at hfc
  · rw [hce] at hfc
    simp only [Option.some_inj] at hfc
    subst hfc
    refine ⟨hcstore, by simp [hce], by simp [hce], by simpa using hthr, ?_⟩
    intro q' hq'
    rw [hq'] at hcscope
    simpa using hcscope

/-- Claim C6: every result list of `searchSimilarChunks` contains only chunks
whose (unrounded) similarity is at or above `minSimilarity`, drawn from the
given document when a scope is supplied and having a non-null embedding; the
rows are ordered by similarity descending and at most `topK` are returned. -/
theorem claim_C6_similarity_search (sim : List ℚ → List ℚ → ℚ)
    (queryVec : List ℚ) (store : List StoredChunk) (pdfId : Option String)
    (topK : Nat) (threshold : ℚ) :
    (searchSimilarChunks sim queryVec store pdfId topK threshold).length ≤
      topK ∧
    List.Pairwise (fun a b : ResultRow => b.similarity ≤ a.similarity)
      (searchSimilarChunks sim queryVec store pdfId topK threshold) ∧
    (∀ r ∈ searchSimilarChunks sim queryVec store pdfId topK threshold,
      ∃ c ∈ store, ∃ e, c.embedding = some e ∧ r.id = c.id ∧
        r.pdfId = c.pdfId ∧ threshold ≤ sim queryVec e ∧
        r.similarity = roundTo4 (sim queryVec e) ∧
        ∀ p, pdfId = some p → c.pdfId = p) := by
  refine ⟨?_, ?_, ?_⟩
  · rw [searchSimilarChunks, List.length_map, List.length_take]
    exact min_le_left _ _
  · rw [searchSimilarChunks, List.pairwise_map]
    have h2 := List.Pairwise.sublist
      (List.take_sublist topK (chunkOrder sim queryVec store pdfId threshold))
      (chunkOrder_pairwise sim queryVec store pdfId threshold)
    exact h2.imp (fun h => roundTo4_mono h)
  · intro r hr
    rw [searchSimilarChunks, List.mem_map] at hr
    obtain ⟨p, hp, rfl⟩ := hr
    have hp2 := chunkOrder_mem sim queryVec store pdfId threshold p
      (List.mem_of_mem_take hp)
    obtain ⟨hstore, hemb, hsim, hthr, hscope⟩ := hp2
    refine ⟨p.1, hstore, p.1.embedding.getD [], hemb, rfl, rfl, ?_, ?_, hscope⟩
    · rw [← hsim]
      exact hthr
    · rw [formatRow, ← hsim]

/-- Witness for C6: a one-chunk scoped store with similarity 1/2 against
threshold 2/5. -/
theorem claim_C6_witness :
    (searchSimilarChunks (fun _ _ => (1 : ℚ)/2) [1]
        [⟨"c1", "p1", 0, "text", some [1], none, 1, "doc.pdf", "/f"⟩]
        (some "p1") 5 ((2 : ℚ)/5)).length ≤ 5 :=
  (claim_C6_similarity_search (fun _ _ => (1 : ℚ)/2) [1]
    [⟨"c1", "p1", 0, "text", some [1], none, 1, "doc.pdf", "/f"⟩]
    (some "p1") 5 ((2 : ℚ)/5)).1
